import Mathlib

/-
Shallow embedding of src/src/petsys_py_lib/spi.py.

The module under verification encodes commands for SPI-attached chips
(AD5535 DAC, LTC2668 DAC, AD7194 ADC, M95256 EEPROM, MAX111xx ADC) into the
parameter tuple of a generic SPI-master transaction primitive
(spi_master_execute, a method of the daqd connection object that lives
outside the verified sources) and decodes the replies.

Every framing function below returns the SpiTx record that the Python code
passes to spi_master_execute.  Functions that consume executor replies are
modelled against an abstract environment env : Nat -> List Nat, where env i
is the byte sequence returned by the executor for the i-th call the function
makes; the i-th command sent is recorded in a companion definition where the
claims need it.  The Python assert in max111xx_read is modelled by returning
none from an Option-valued function.
-/

inductive MisoEdge where
  | rising
  | falling
deriving DecidableEq, Repr

/-- The parameter tuple handed to spi_master_execute: cycle length, the four
bit-tick windows (clock enable, chip select, MOSI, MISO), the payload bytes,
the frequency selector and the sampling edge. -/
structure SpiTx where
  cycle : ℕ
  sclk_en_on : ℕ
  sclk_en_off : ℕ
  cs_on : ℕ
  cs_off : ℕ
  mosi_on : ℕ
  mosi_off : ℕ
  miso_on : ℕ
  miso_off : ℕ
  mosi_data : List ℕ
  freq_sel : ℕ
  miso_edge : MisoEdge
deriving DecidableEq, Repr

/-- Python style indexing into a reply byte list (reply i), with default 0
used only beyond the end of the list; all theorems below work with replies
long enough for the index to be in range. -/
def getByte (reply : List ℕ) (i : ℕ) : ℕ :=
  reply.getD i 0

/-- The window sanity predicate of claim C1: each of the four windows starts
no later than it ends and ends no later than the cycle length (the lower
bound 0 <= start is automatic over Nat). -/
def windowsOK (t : SpiTx) : Prop :=
  t.sclk_en_on ≤ t.sclk_en_off ∧ t.sclk_en_off ≤ t.cycle ∧
  t.cs_on ≤ t.cs_off ∧ t.cs_off ≤ t.cycle ∧
  t.mosi_on ≤ t.mosi_off ∧ t.mosi_off ≤ t.cycle ∧
  t.miso_on ≤ t.miso_off ∧ t.miso_off ≤ t.cycle

/-- AD5535 low level framing (ad5535_ll, spi.py lines 5-34): shift the data
word left by 5, split into 3 bytes, pad with 2 zero bytes on each side. -/
def ad5535_ll (data : ℕ) : SpiTx :=
  let data := data <<< 5
  let command : List ℕ := [(data >>> 16) &&& 0xFF, (data >>> 8) &&& 0xFF, (data >>> 0) &&& 0xFF]
  let w : ℕ := 19
  let padding : List ℕ := List.replicate 2 0x00
  let p : ℕ := 8 * padding.length
  { cycle := p + w + p
    sclk_en_on := p
    sclk_en_off := p + w
    cs_on := p - 1
    cs_off := p
    mosi_on := 0
    mosi_off := p + w + p
    miso_on := p
    miso_off := p + w
    mosi_data := padding ++ command ++ padding
    freq_sel := 0
    miso_edge := MisoEdge.rising }

/-- AD5535 channel setter (ad5535_set_channel, spi.py lines 36-56). -/
def ad5535_set_channel (channelID value : ℕ) : SpiTx :=
  let channelID := channelID &&& 0b11111
  let value := value &&& 0b11111111111111
  let command := channelID <<< 14 ||| value
  ad5535_ll command

/-- LTC2668 low level framing (ltc2668_ll, spi.py lines 59-83). -/
def ltc2668_ll (command : List ℕ) : SpiTx :=
  let w := 8 * command.length
  let padding : List ℕ := List.replicate 2 0x00
  let p := 8 * padding.length
  { cycle := p + w + p
    sclk_en_on := p
    sclk_en_off := p + w
    cs_on := p - 1
    cs_off := p + w + 1
    mosi_on := 0
    mosi_off := p + w + p
    miso_on := p
    miso_off := p + w
    mosi_data := padding ++ command ++ padding
    freq_sel := 0
    miso_edge := MisoEdge.falling }

/-- The 3 byte command built by ltc2668_set_channel (spi.py line 98). -/
def ltc2668_set_channel_command (channelID value : ℕ) : List ℕ :=
  [0b00110000 + channelID, (value >>> 8) &&& 0xFF, value &&& 0xFF]

/-- LTC2668 channel setter (ltc2668_set_channel, spi.py lines 86-99). -/
def ltc2668_set_channel (channelID value : ℕ) : SpiTx :=
  ltc2668_ll (ltc2668_set_channel_command channelID value)

/-- AD7194 low level framing (ad7194_ll, spi.py lines 102-130): a zero byte
is prepended to the command, 2 bytes of 0xFF padding before, and
2 + read_count bytes of 0xFF padding after. -/
def ad7194_ll (command : List ℕ) (read_count : ℕ) : SpiTx :=
  let command := 0x00 :: command
  let w := 8 * command.length
  let r := 8 * read_count
  let p := 2
  let w_padding : List ℕ := List.replicate p 0xFF
  let r_padding : List ℕ := List.replicate (p + read_count) 0xFF
  let p := 8 * p
  { cycle := p + w + r + p
    sclk_en_on := p
    sclk_en_off := p + w + r + 1
    cs_on := p - 1
    cs_off := p + w + r + 1
    mosi_on := 0
    mosi_off := p + w + r + p
    miso_on := p + w
    miso_off := p + w + r
    mosi_data := w_padding ++ command ++ r_padding
    freq_sel := 1
    miso_edge := MisoEdge.falling }

/-- The 1 byte status command sent on every iteration of the conversion
ready poll loop in ad7194_get_channel (spi.py line 156), requesting 1 reply
byte. -/
def ad7194_status_command : List ℕ :=
  [0b01000000]

/-- The inter-poll delay of the conversion ready loop, in milliseconds
(sleep(0.1) at spi.py line 158). -/
def ad7194_poll_sleep_ms : ℕ :=
  100

/-- Fuel-indexed model of the conversion ready poll loop of
ad7194_get_channel (spi.py lines 154-158).  env j is the executor reply to
the j-th status query ad7194_ll(..., [0b01000000], 1); k is the index of the
next query, sleeps counts the sleep(0.1) calls made so far.  The loop checks
bit 0x80 of the second reply byte: clear means exit (returning the exit
query index and the number of sleeps performed), set means sleep once and
query again.  none means the loop is still running after fuel iterations,
since the source has no iteration bound. -/
def ad7194_poll (env : ℕ → List ℕ) : ℕ → ℕ → ℕ → Option (ℕ × ℕ)
  | 0, _, _ => none
  | fuel + 1, k, sleeps =>
    if getByte (env k) 1 &&& 0x80 = 0x00 then some (k, sleeps)
    else ad7194_poll env fuel (k + 1) (sleeps + 1)

/-- M95256 low level framing (m95256_ll, spi.py lines 167-195). -/
def m95256_ll (command : List ℕ) (read_count : ℕ) : SpiTx :=
  let w := 8 * command.length
  let r := 8 * read_count
  let p := 2
  let w_padding : List ℕ := List.replicate p 0xFF
  let r_padding : List ℕ := List.replicate (p + read_count) 0xFF
  let p := 8 * p
  { cycle := p + w + r + p
    sclk_en_on := p
    sclk_en_off := p + w + r + 1
    cs_on := p - 0
    cs_off := p + w + r + 0
    mosi_on := 0
    mosi_off := p + w + r + p
    miso_on := p + w
    miso_off := p + w + r
    mosi_data := w_padding ++ command ++ r_padding
    freq_sel := 0
    miso_edge := MisoEdge.falling }

/-- The Python range(start, stop, step) sequence for a positive step. -/
def pyRange (start stop step : ℕ) : List ℕ :=
  List.range' start ((stop - start + step - 1) / step) step

/-- Modelled from the spec: spi_master_execute is a method of the daqd
connection object and is not among the verified sources.  Per the spec, for
the EEPROM read framing its reply to a chunk requesting count data bytes
consists of one echoed address-phase byte, the count data bytes, and one
trailing pad byte, hence count + 2 bytes in total. -/
def m95256_reply_shape (count : ℕ) (reply : List ℕ) : Prop :=
  reply.length = count + 2

/-- The chunk loop of m95256_read (spi.py lines 213-217) over the remaining
chunk start addresses: for each address a it computes
count = min(2, stop - a), sends the read command [0x03, high(a), low(a)]
with read_count = count via m95256_ll, strips the first and last byte of the
reply (r[1:-1]) and concatenates.  The second component records the
(command, read_count) pair of every m95256_ll call made, in order.  env k is
the executor reply to the k-th call. -/
def m95256_read_go (env : ℕ → List ℕ) (stop : ℕ) : ℕ → List ℕ → List ℕ × List (List ℕ × ℕ)
  | _, [] => ([], [])
  | k, a :: rest =>
    let count := min 2 (stop - a)
    let command : List ℕ := [0b00000011, (a >>> 8) &&& 0xFF, a &&& 0xFF]
    let stripped := ((env k).drop 1).dropLast
    let tail := m95256_read_go env stop (k + 1) rest
    (stripped ++ tail.1, (command, count) :: tail.2)

/-- EEPROM read (m95256_read, spi.py lines 197-218): iterate
range(address, address + n_bytes, 2) and concatenate the stripped chunk
replies. -/
def m95256_read (address n_bytes : ℕ) (env : ℕ → List ℕ) : List ℕ :=
  (m95256_read_go env (address + n_bytes) 0 (pyRange address (address + n_bytes) 2)).1

/-- The ordered list of (command, read_count) pairs of the m95256_ll calls
issued by m95256_read. -/
def m95256_read_calls (address n_bytes : ℕ) (env : ℕ → List ℕ) : List (List ℕ × ℕ) :=
  (m95256_read_go env (address + n_bytes) 0 (pyRange address (address + n_bytes) 2)).2

/-- MAX111xx low level framing (max111xx_ll, spi.py lines 256-270). -/
def max111xx_ll (command : List ℕ) : SpiTx :=
  let w := 8 * command.length
  let padding : List ℕ := List.replicate 2 0xFF
  let p := 8 * padding.length
  { cycle := p + w + p
    sclk_en_on := p
    sclk_en_off := p + w
    cs_on := 0
    cs_off := p + w + p
    mosi_on := 0
    mosi_off := p + w + p
    miso_on := p
    miso_off := p + w
    mosi_data := padding ++ command ++ padding
    freq_sel := 1
    miso_edge := MisoEdge.falling }

/-- Configuration word 1 of max111xx_check (spi.py line 273). -/
def m_config1 : ℕ := 0x00008064

/-- Configuration word 2 of max111xx_check (spi.py line 274). -/
def m_config2 : ℕ := 0x00008800

/-- Configuration word 3 of max111xx_check (spi.py line 275). -/
def m_config3 : ℕ := 0x00009000

/-- Control word of max111xx_check and max111xx_read (spi.py lines 276 and
295). -/
def m_control : ℕ := 0x00000826

/-- Repeat/idle word of max111xx_read (spi.py line 296). -/
def m_repeat : ℕ := 0x00000000

/-- The 2 byte commands sent by max111xx_check, in call order: the three
configuration writes, then the control write (spi.py lines 278-288). -/
def max111xx_check_commands : List (List ℕ) :=
  [ [(m_config1 >>> 8) &&& 0xFF, m_config1 &&& 0xFF],
    [(m_config2 >>> 8) &&& 0xFF, m_config2 &&& 0xFF],
    [(m_config3 >>> 8) &&& 0xFF, m_config3 &&& 0xFF],
    [(m_control >>> 8) &&& 0xFF, m_control &&& 0xFF] ]

/-- MAX111xx detection check (max111xx_check, spi.py lines 272-292).  env i
is the executor reply to the i-th max111xx_ll call (commands as in
max111xx_check_commands).  In the source the reply variable is reassigned on
each of the three configuration writes, so the tests run on the reply to the
third configuration write only; the first two replies are never examined. -/
def max111xx_check (env : ℕ → List ℕ) : Bool :=
  let _reply := env 0
  let _reply := env 1
  let reply := env 2
  if getByte reply 1 = 0xFF ∧ getByte reply 2 = 0xFF then false
  else if ¬ (getByte reply 1 = 0x88 ∧ getByte reply 2 = 0x0) then false
  else
    let reply := env 3
    if ¬ (getByte reply 1 = 0x90 ∧ getByte reply 2 = 0x0) then false
    else true

/-- The 2 byte commands sent by max111xx_read, in call order: the control
write selecting the channel, then the repeat/idle word (spi.py
lines 298-300). -/
def max111xx_read_commands (channelID : ℕ) : List (List ℕ) :=
  let command := m_control + (channelID <<< 7)
  [ [(command >>> 8) &&& 0xFF, command &&& 0xFF],
    [(m_repeat >>> 8) &&& 0xFF, m_repeat &&& 0xFF] ]

/-- MAX111xx channel read (max111xx_read, spi.py lines 294-305).  env i is
the executor reply to the i-th max111xx_ll call.  The second reply bytes 1
and 2 are combined big endian into v; the low 12 bits are the converted
value and v shifted right by 12 is the echoed channel.  The Python
assert ch == channelID is modelled by returning none on mismatch. -/
def max111xx_read (channelID : ℕ) (env : ℕ → List ℕ) : Option ℕ :=
  let _reply := env 0
  let reply := env 1
  let v := getByte reply 1 * 256 + getByte reply 2
  let u := v &&& 0b111111111111
  let ch := v >>> 12
  if ch = channelID then some u else none

/-- Environment showing that max111xx_check never looks at the replies to
the first two configuration writes: both are all 0xFF (an absent chip), yet
the third configuration reply and the control reply carry the expected
echoes. -/
def max111xxEnvCex : ℕ → List ℕ :=
  fun i =>
    if i = 2 then [0x00, 0x88, 0x00, 0x00, 0x00, 0x00]
    else if i = 3 then [0x00, 0x90, 0x00, 0x00, 0x00, 0x00]
    else [0xFF, 0xFF, 0xFF, 0xFF, 0xFF, 0xFF]

/-- Example executor environment for the EEPROM read of 5 bytes from
address 0x0010: chunk replies of 4, 4 and 3 bytes whose stripped middles are
[1,2], [3,4] and [5]. -/
def m95256EnvExample : ℕ → List ℕ :=
  fun k =>
    if k = 0 then [0xAA, 1, 2, 0xFF]
    else if k = 1 then [0xAA, 3, 4, 0xFF]
    else [0xAA, 5, 0xFF]

/-- Example executor environment for the AD7194 conversion poll: busy
(bit 0x80 set in the second reply byte) for the first two status queries,
ready on the third. -/
def ad7194EnvExample : ℕ → List ℕ :=
  fun j => if j < 2 then [0x00, 0xFF] else [0x00, 0x00]

theorem and_255_eq_mod (n : ℕ) : n &&& 255 = n % 256 := by
  have h : (255 : ℕ) = 2 ^ 8 - 1 := by norm_num
  rw [h, Nat.and_pow_two_sub_one_eq_mod]

theorem and_4095_eq_mod (n : ℕ) : n &&& 4095 = n % 4096 := by
  have h : (4095 : ℕ) = 2 ^ 12 - 1 := by norm_num
  rw [h, Nat.and_pow_two_sub_one_eq_mod]

/-- Claim C1: for every channel/value input accepted by a chip-family
encoder (ad5535_ll, ltc2668_ll, ad7194_ll with read_count >= 0, m95256_ll,
max111xx_ll), each of the four windows passed to spi_master_execute
(clock-enable, chip-select, MOSI, MISO) satisfies
0 <= start <= end <= cycle_length. -/
theorem spi_windows_within_cycle :
    (∀ data : ℕ, windowsOK (ad5535_ll data)) ∧
    (∀ command : List ℕ, windowsOK (ltc2668_ll command)) ∧
    (∀ (command : List ℕ) (read_count : ℕ), windowsOK (ad7194_ll command read_count)) ∧
    (∀ (command : List ℕ) (read_count : ℕ), windowsOK (m95256_ll command read_count)) ∧
    (∀ command : List ℕ, windowsOK (max111xx_ll command)) := by
  refine ⟨fun data => ?_, fun c => ?_, fun c rc => ?_, fun c rc => ?_, fun c => ?_⟩ <;>
    simp [ad5535_ll, ltc2668_ll, ad7194_ll, m95256_ll, max111xx_ll, windowsOK] <;>
    omega

/-- Claim C2 counterexample: the claim says max111xx_check validates each of
the three configuration-write replies and returns false immediately if the
very first reply is all 0xFF.  In this environment the reply to the first
configuration write is all 0xFF, yet max111xx_check returns true, because
the source only ever examines the reply to the third configuration write and
the control-write reply. -/
theorem max111xx_check_first_reply_all_ff_yet_true :
    max111xxEnvCex 0 = List.replicate 6 0xFF ∧ max111xx_check max111xxEnvCex = true := by
  constructor
  · rfl
  · rfl

/-- Claim C2 (amended): max111xx_check ignores the replies to the first two
configuration writes; its result is true exactly when bytes 1 and 2 of the
reply to the third configuration write equal the expected config echo
(0x88, 0x00) and bytes 1 and 2 of the control-write reply equal the expected
control echo (0x90, 0x00).  In particular the all-0xFF early-false test and
the config-echo test both run on the third configuration reply, and a false
is returned as soon as either of the two examined replies fails its test. -/
theorem max111xx_check_true_iff (env : ℕ → List ℕ) :
    max111xx_check env =
      decide ((getByte (env 2) 1 = 0x88 ∧ getByte (env 2) 2 = 0x0) ∧
              (getByte (env 3) 1 = 0x90 ∧ getByte (env 3) 2 = 0x0)) := by
  unfold max111xx_check
  dsimp only
  split_ifs with hff hecho hctl <;> simp_all

/-- Claim C3: max111xx_read decodes the second reply bytes 1 and 2 as a big
endian 16 bit value v; when the echoed channel v >>> 12 equals the requested
channelID it returns the lower 12 bits v % 4096, and when it differs the
Python assert fires, modelled as none, rather than silently returning a
value. -/
theorem max111xx_read_echo_guard (channelID : ℕ) (env : ℕ → List ℕ) :
    max111xx_read channelID env =
      (if (getByte (env 1) 1 * 256 + getByte (env 1) 2) >>> 12 = channelID
       then some ((getByte (env 1) 1 * 256 + getByte (env 1) 2) % 4096)
       else none) := by
  simp only [max111xx_read, and_4095_eq_mod]

/-- Claim C4: m95256_read of 5 bytes from address 0x0010 issues exactly
three m95256_ll transactions, with read counts 2, 2 and 1 and read commands
for addresses 0x0010, 0x0012 and 0x0014; it strips the first and last byte
of each chunk reply and concatenates the stripped replies in address order,
and under the spec-modelled executor reply shape (count + 2 bytes per chunk)
the result is exactly 5 bytes long. -/
theorem m95256_read_chunking (env : ℕ → List ℕ)
    (h0 : m95256_reply_shape 2 (env 0)) (h1 : m95256_reply_shape 2 (env 1))
    (h2 : m95256_reply_shape 1 (env 2)) :
    m95256_read_calls 0x0010 5 env =
        [([0x03, 0x00, 0x10], 2), ([0x03, 0x00, 0x12], 2), ([0x03, 0x00, 0x14], 1)] ∧
      m95256_read 0x0010 5 env =
        ((env 0).drop 1).dropLast ++ ((env 1).drop 1).dropLast ++ ((env 2).drop 1).dropLast ∧
      (m95256_read 0x0010 5 env).length = 5 := by
  have hc : pyRange 0x0010 (0x0010 + 5) 2 = [0x0010, 0x0012, 0x0014] := rfl
  have he : m95256_read 0x0010 5 env =
      ((env 0).drop 1).dropLast ++ ((env 1).drop 1).dropLast ++ ((env 2).drop 1).dropLast := by
    show (m95256_read_go env (0x0010 + 5) 0 (pyRange 0x0010 (0x0010 + 5) 2)).1 = _
    rw [hc]
    simp [m95256_read_go, List.append_assoc]
  refine ⟨rfl, he, ?_⟩
  rw [he]
  unfold m95256_reply_shape at h0 h1 h2
  simp [List.length_append, List.length_dropLast, List.length_drop, h0, h1, h2]

/-- Claim C4 witness: a concrete executor environment with chunk replies of
4, 4 and 3 bytes, on which the read returns the 5 stripped data bytes. -/
theorem m95256_read_chunking_witness :
    m95256_reply_shape 2 (m95256EnvExample 0) ∧ m95256_reply_shape 2 (m95256EnvExample 1) ∧
      m95256_reply_shape 1 (m95256EnvExample 2) ∧
      m95256_read 0x0010 5 m95256EnvExample =
        ((m95256EnvExample 0).drop 1).dropLast ++ ((m95256EnvExample 1).drop 1).dropLast ++
          ((m95256EnvExample 2).drop 1).dropLast :=
  ⟨rfl, rfl, rfl, (m95256_read_chunking m95256EnvExample rfl rfl rfl).2.1⟩

/-- Claim C5 counterexample: the claim says the ad7194_ll chip-select window
is held one bit past the clock-enable end; in the source both end at
pad + w + r + 1, shown here on the empty command with read_count 0, where
both equal 25. -/
theorem ad7194_cs_not_one_past_sclk_end :
    (ad7194_ll [] 0).sclk_en_off = 25 ∧ (ad7194_ll [] 0).cs_off = 25 ∧
      ¬ (ad7194_ll [] 0).cs_off = (ad7194_ll [] 0).sclk_en_off + 1 := by
  refine ⟨rfl, rfl, ?_⟩
  decide

/-- Claim C5 (amended): for every command and read_count, ad7194_ll builds a
transaction with cycle = pad + w + r + pad, clock-enable window
[pad, pad + w + r + 1), chip-select asserted one bit before the clock-enable
start and held exactly to the clock-enable end (not one bit past it), and a
MISO window that is exactly the read region [pad + w, pad + w + r), where
pad = 16, w = 8 * (len(command) + 1) counts the prepended zero byte and
r = 8 * read_count. -/
theorem ad7194_ll_windows (command : List ℕ) (read_count : ℕ) :
    (ad7194_ll command read_count).cycle
        = 16 + 8 * (command.length + 1) + 8 * read_count + 16 ∧
      (ad7194_ll command read_count).sclk_en_on = 16 ∧
      (ad7194_ll command read_count).sclk_en_off
        = 16 + 8 * (command.length + 1) + 8 * read_count + 1 ∧
      (ad7194_ll command read_count).cs_on = (ad7194_ll command read_count).sclk_en_on - 1 ∧
      (ad7194_ll command read_count).cs_off = (ad7194_ll command read_count).sclk_en_off ∧
      (ad7194_ll command read_count).miso_on = 16 + 8 * (command.length + 1) ∧
      (ad7194_ll command read_count).miso_off
        = 16 + 8 * (command.length + 1) + 8 * read_count := by
  refine ⟨?_, rfl, ?_, rfl, rfl, ?_, ?_⟩ <;> simp [ad7194_ll]

/-- Claim C6 counterexample: the claim says the ad5535_ll chip-select window
extends through the clock-enable end; in the source the chip-select window
is [15, 16), ending at the clock-enable start, while the clock-enable window
ends at 35, shown here on data 0. -/
theorem ad5535_cs_not_through_sclk_end :
    (ad5535_ll 0).cs_off = 16 ∧ (ad5535_ll 0).sclk_en_off = 35 ∧
      ¬ (ad5535_ll 0).cs_off = (ad5535_ll 0).sclk_en_off := by
  refine ⟨rfl, rfl, ?_⟩
  decide

/-- Claim C6 (amended): for every data word, ad5535_ll builds a transaction
whose clock-enable window is exactly the 19 bit word region [16, 35) between
the two 16 bit paddings, whose chip-select window is the single bit [15, 16)
asserted one bit before the clock-enable start and ending at the
clock-enable start (not extending through the clock-enable end), and which
uses the default rising sampling edge. -/
theorem ad5535_ll_windows (data : ℕ) :
    (ad5535_ll data).cycle = 16 + 19 + 16 ∧
      (ad5535_ll data).sclk_en_on = 16 ∧
      (ad5535_ll data).sclk_en_off = 16 + 19 ∧
      (ad5535_ll data).cs_on = (ad5535_ll data).sclk_en_on - 1 ∧
      (ad5535_ll data).cs_off = (ad5535_ll data).sclk_en_on ∧
      (ad5535_ll data).miso_edge = MisoEdge.rising :=
  ⟨rfl, rfl, rfl, rfl, rfl, rfl⟩

/-- Claim C7 counterexample: the claim says the ltc2668_ll clock-enable
window spans the full padded word plus one extra trailing bit; in the source
the clock-enable window ends exactly at the word end pad + w (it is the
chip-select window that gains the extra trailing bit), shown here on a
3 byte command where the clock-enable end is 40, not 41. -/
theorem ltc2668_sclk_no_extra_trailing_bit :
    (ltc2668_ll [0x35, 0x12, 0x34]).sclk_en_off = 40 ∧
      ¬ (ltc2668_ll [0x35, 0x12, 0x34]).sclk_en_off = 16 + 8 * 3 + 1 := by
  refine ⟨rfl, ?_⟩
  decide

/-- Claim C7 (amended): for every command, ltc2668_ll builds a transaction
whose clock-enable window [16, 16 + w) spans exactly the full command word
with no extra trailing bit, whose chip-select window starts one bit earlier
than the clock-enable window and ends one bit later, and which selects the
falling sampling edge. -/
theorem ltc2668_ll_windows (command : List ℕ) :
    (ltc2668_ll command).cycle = 16 + 8 * command.length + 16 ∧
      (ltc2668_ll command).sclk_en_on = 16 ∧
      (ltc2668_ll command).sclk_en_off = 16 + 8 * command.length ∧
      (ltc2668_ll command).cs_on = (ltc2668_ll command).sclk_en_on - 1 ∧
      (ltc2668_ll command).cs_off = (ltc2668_ll command).sclk_en_off + 1 ∧
      (ltc2668_ll command).miso_edge = MisoEdge.falling := by
  refine ⟨?_, rfl, ?_, rfl, ?_, rfl⟩ <;> simp [ltc2668_ll]

/-- Claim C8: ltc2668_set_channel builds the 3 byte command
[0b00110000 + channel, high byte of value, low byte of value]; in particular
for channelID 5 and value 0x1234 the command is [0x35, 0x12, 0x34], and for
every value below 2 ^ 16 the second and third bytes are exactly the high and
low byte of the value. -/
theorem ltc2668_set_channel_bytes :
    ltc2668_set_channel_command 5 0x1234 = [0x35, 0x12, 0x34] ∧
      ∀ channelID value : ℕ, value < 2 ^ 16 →
        ltc2668_set_channel_command channelID value
          = [0b00110000 + channelID, value / 2 ^ 8, value % 2 ^ 8] := by
  constructor
  · rfl
  · intro c v hv
    unfold ltc2668_set_channel_command
    have hdiv : v >>> 8 = v / 2 ^ 8 := Nat.shiftRight_eq_div_pow v 8
    have hlt : v / 2 ^ 8 < 256 := by omega
    have h2 : v >>> 8 &&& 0xFF = v / 2 ^ 8 := by
      rw [hdiv, and_255_eq_mod, Nat.mod_eq_of_lt hlt]
    have h3 : v &&& 0xFF = v % 2 ^ 8 := and_255_eq_mod v
    rw [h2, h3]

/-- Claim C8 witness: the general byte decomposition applied at channel 5
and value 0x1234. -/
theorem ltc2668_set_channel_bytes_witness :
    (0x1234 : ℕ) < 2 ^ 16 ∧
      ltc2668_set_channel_command 5 0x1234
        = [0b00110000 + 5, 0x1234 / 2 ^ 8, 0x1234 % 2 ^ 8] :=
  ⟨by norm_num, ltc2668_set_channel_bytes.2 5 0x1234 (by norm_num)⟩

theorem ad7194_poll_stays_none (env : ℕ → List ℕ) :
    ∀ fuel k sleeps : ℕ,
      (∀ j, k ≤ j → j < k + fuel → getByte (env j) 1 &&& 0x80 ≠ 0x00) →
      ad7194_poll env fuel k sleeps = none := by
  intro fuel
  induction fuel with
  | zero => intro k sleeps _; rfl
  | succ n ih =>
    intro k sleeps h
    have hk : getByte (env k) 1 &&& 0x80 ≠ 0x00 := h k le_rfl (by omega)
    rw [ad7194_poll, if_neg hk]
    exact ih (k + 1) (sleeps + 1) (fun j hj1 hj2 => h j (by omega) (by omega))

theorem ad7194_poll_exits (env : ℕ → List ℕ) :
    ∀ k i sleeps : ℕ,
      (∀ j, i ≤ j → j < i + k → getByte (env j) 1 &&& 0x80 ≠ 0x00) →
      getByte (env (i + k)) 1 &&& 0x80 = 0x00 →
      ad7194_poll env (k + 1) i sleeps = some (i + k, sleeps + k) := by
  intro k
  induction k with
  | zero =>
    intro i sleeps _ hc
    rw [ad7194_poll, if_pos (by simpa using hc)]
    simp
  | succ n ih =>
    intro i sleeps h hc
    have hi : getByte (env i) 1 &&& 0x80 ≠ 0x00 := h i le_rfl (by omega)
    rw [ad7194_poll, if_neg hi]
    have hrec := ih (i + 1) (sleeps + 1)
      (fun j hj1 hj2 => h j (by omega) (by omega))
      (by rw [show i + 1 + n = i + (n + 1) by omega]; exact hc)
    rw [hrec]
    congr 1
    rw [Prod.mk.injEq]
    omega

/-- Claim C9: in the conversion-ready poll of ad7194_get_channel the status
command is the single byte 0b01000000 with one reply byte requested and the
inter-poll sleep is 100 ms; as long as bit 0x80 of the second reply byte is
set the loop keeps retrying with no bound on the iteration count (after any
number k of busy replies the loop is still running, having slept once per
busy reply), and it exits exactly at the first query whose bit 0x80 reads as
clear. -/
theorem ad7194_conversion_poll (env : ℕ → List ℕ) (k : ℕ) :
    (ad7194_status_command = [0b01000000] ∧ ad7194_poll_sleep_ms = 100) ∧
      ((∀ j, j < k → getByte (env j) 1 &&& 0x80 ≠ 0x00) →
        ad7194_poll env k 0 0 = none) ∧
      ((∀ j, j < k → getByte (env j) 1 &&& 0x80 ≠ 0x00) →
        getByte (env k) 1 &&& 0x80 = 0x00 →
        ad7194_poll env (k + 1) 0 0 = some (k, k)) := by
  refine ⟨⟨rfl, rfl⟩, ?_, ?_⟩
  · intro h
    exact ad7194_poll_stays_none env k 0 0 (fun j _ hj2 => h j (by omega))
  · intro h hc
    have := ad7194_poll_exits env k 0 0 (fun j _ hj2 => h j (by omega)) (by simpa using hc)
    simpa using this

/-- Claim C9 witness: with two busy replies followed by a ready reply the
poll exits at the third query after two sleeps, and with busy replies only
it is still running after two iterations. -/
theorem ad7194_conversion_poll_witness :
    ad7194_poll ad7194EnvExample 2 0 0 = none ∧
      ad7194_poll ad7194EnvExample 3 0 0 = some (2, 2) :=
  ⟨(ad7194_conversion_poll ad7194EnvExample 2).2.1 (by decide),
   (ad7194_conversion_poll ad7194EnvExample 2).2.2 (by decide) (by decide)⟩

/-- Claim C10: ltc2668_set_channel applies no masking to channelID: the
first payload byte is 0b00110000 + channelID, so for every channelID above
0xCF that byte exceeds 0xFF and is no longer a valid 8 bit payload byte, and
for every channelID above 15 the opcode bits (the upper nibble 0b0011) of
the command are altered. -/
theorem ltc2668_channel_unmasked (channelID value : ℕ) :
    (ltc2668_set_channel_command channelID value).head? = some (0b00110000 + channelID) ∧
      (0xCF < channelID → 0xFF < 0b00110000 + channelID) ∧
      (15 < channelID → (0b00110000 + channelID) >>> 4 ≠ 0b0011) := by
  refine ⟨rfl, fun h => by omega, fun h => ?_⟩
  rw [Nat.shiftRight_eq_div_pow]
  have h4 : 4 ≤ (0b00110000 + channelID) / 2 ^ 4 :=
    (Nat.le_div_iff_mul_le (by norm_num)).2 (by omega)
  omega

/-- Claim C10 witness: at channelID 0xD0 the first byte overflows 8 bits,
and at channelID 16 the opcode nibble is no longer 0b0011. -/
theorem ltc2668_channel_unmasked_witness :
    0xFF < 0b00110000 + 0xD0 ∧ (0b00110000 + 16) >>> 4 ≠ 0b0011 :=
  ⟨(ltc2668_channel_unmasked 0xD0 0).2.1 (by norm_num),
   (ltc2668_channel_unmasked 16 0).2.2 (by norm_num)⟩
